import Mathlib

/-!
Verification of the dataset upload / preview / commit state machine of
components/chat/ChatInput.tsx (Auto-Analyst frontend).

The component is embedded shallowly: React state becomes an explicit
ChatState record, each handler becomes a pure function from the prior
state (plus an oracle describing the backend responses at its suspension
points) to the next state together with the list of network endpoints it
called.  Timers are reified: scheduling a setTimeout stores the action the
callback would perform, and fireErrorTimer executes it.
-/

set_option maxHeartbeats 1000000

/-- A browser File handle: name, declared MIME type, lastModified
timestamp (0 models a missing modification time) and byte size. -/
structure JsFile where
  name : String
  type : String
  lastModified : Nat
  size : Nat
deriving Repr, DecidableEq

/-- FileUpload.status values. -/
inductive FileStatus where
  | loading
  | success
  | error
deriving Repr, DecidableEq

/-- The FileUpload interface of ChatInput.tsx. -/
structure FileUpload where
  file : JsFile
  status : FileStatus
  errorMessage : Option String := none
  isExcel : Bool := false
  sheets : Option (List String) := none
  selectedSheet : Option String := none
  datasetUploadId : Option Nat := none
deriving Repr, DecidableEq

/-- The FilePreview interface. -/
structure FilePreview where
  headers : List String
  rows : List (List String)
  name : String
  description : String
deriving Repr, DecidableEq

/-- The DatasetDescription interface. -/
structure DatasetDescription where
  name : String
  description : String
deriving Repr, DecidableEq

/-- The JSON record persisted under the localStorage key
lastUploadedFile.  The success-persistence effect stores only
name/type/lastModified; the commit path additionally stores
isExcel/selectedSheet, so those carry defaults. -/
structure StoredFileInfo where
  name : String
  type : String
  lastModified : Nat
  isExcel : Bool := false
  selectedSheet : Option String := none
deriving Repr, DecidableEq

/-- The error notification shown by the auto-dismissing notifier. -/
structure ErrorBanner where
  message : String
  details : Option String := none
deriving Repr, DecidableEq

/-- What the currently scheduled 5000 ms error timeout will do when it
fires.  handleFileSelect schedules callbacks that clear the FileUpload,
the persisted record and the notification; the preview handlers schedule
callbacks that clear only the notification. -/
inductive TimerAction where
  | clearFileAndBanner
  | clearBannerOnly
deriving Repr, DecidableEq

/-- The network endpoints the component can call. -/
inductive NetCall where
  | resetSession
  | excelSheets
  | uploadDataframe
  | uploadExcel
  | previewCsv
  | defaultDataset
  | createDescription
  | sessionInfo
deriving Repr, DecidableEq

/-- Outcome of one backend call. -/
inductive NetResult (Alpha : Type) where
  | ok (val : Alpha)
  | err (msg : String)
deriving Repr, DecidableEq

/-- Response body of upload_dataframe / upload_excel / reset-session:
optional fresh session_id and optional dataset_upload_id. -/
structure UploadData where
  sessionId : Option String := none
  datasetUploadId : Option Nat := none
deriving Repr, DecidableEq

/-- Response body of api/preview-csv. -/
structure PreviewData where
  headers : List String
  rows : List (List String)
  name : String
  description : String
deriving Repr, DecidableEq

/-- Response body of api/default-dataset. -/
structure DefaultDatasetData where
  headers : List String
  rows : List (List String)
  name : String
  description : String
  sessionId : Option String := none
deriving Repr, DecidableEq

/-- Response body of api/session-info; an empty datasetName models an
absent dataset_name field. -/
structure SessionInfoData where
  isCustomDataset : Bool
  datasetName : String
  datasetDescription : String
deriving Repr, DecidableEq

/-- The React state of ChatInput relevant to the upload state machine,
including the localStorage slot and the files held by the hidden file
input element. -/
structure ChatState where
  fileUpload : Option FileUpload := none
  filePreview : Option FilePreview := none
  datasetDescription : DatasetDescription := { name := "", description := "" }
  lastUploadedFile : Option StoredFileInfo := none
  errorBanner : Option ErrorBanner := none
  errorTimer : Option TimerAction := none
  showPreview : Bool := false
  showSheetSelector : Bool := false
  showDatasetResetPopup : Bool := false
  datasetMismatch : Bool := false
  uploadSuccess : Bool := false
  autoDescribeScheduled : Bool := false
  isGeneratingDescription : Bool := false
  sessionId : Option String := none
  fileInputFiles : List JsFile := []
deriving Repr, DecidableEq

/-- Executes the pending 5000 ms error timeout, if any. -/
def fireErrorTimer (s : ChatState) : ChatState :=
  match s.errorTimer with
  | none => s
  | some TimerAction.clearFileAndBanner =>
      { s with fileUpload := none, lastUploadedFile := none,
               errorBanner := none, errorTimer := none }
  | some TimerAction.clearBannerOnly =>
      { s with errorBanner := none, errorTimer := none }

/-- The useEffect (ChatInput.tsx lines 535 to 551) that mirrors any
success-status FileUpload into the localStorage record after a render. -/
def persistEffect (s : ChatState) : ChatState :=
  match s.fileUpload with
  | some fu =>
      if fu.status = FileStatus.success then
        let stored : StoredFileInfo :=
          { name := fu.file.name, type := fu.file.type,
            lastModified := fu.file.lastModified }
        { s with lastUploadedFile := some stored }
      else s
  | none => s

/-- ASCII lower-casing of one character, as toLowerCase acts on the
ASCII file names considered here. -/
def asciiLowerChar (c : Char) : Char :=
  if 65 ≤ c.toNat ∧ c.toNat ≤ 90 then Char.ofNat (c.toNat + 32) else c

/-- toLowerCase, computed on the character list so the kernel can
evaluate it. -/
def jsToLower (s : String) : String :=
  String.mk (s.data.map asciiLowerChar)

/-- endsWith, computed on the character lists. -/
def jsEndsWith (s post : String) : Bool :=
  post.data.isSuffixOf s.data

/-- file.name.toLowerCase().endsWith of .csv. -/
def isCSVByExtension (f : JsFile) : Bool :=
  jsEndsWith (jsToLower f.name) ".csv"

/-- Declared CSV MIME types accepted by handleFileSelect. -/
def isCSVByType (f : JsFile) : Bool :=
  f.type == "text/csv" || f.type == "application/csv"

/-- file.name.toLowerCase().endsWith of .xlsx or .xls. -/
def isExcelByExtension (f : JsFile) : Bool :=
  jsEndsWith (jsToLower f.name) ".xlsx" || jsEndsWith (jsToLower f.name) ".xls"

/-- Declared Excel MIME types accepted by handleFileSelect. -/
def isExcelByType (f : JsFile) : Bool :=
  f.type == "application/vnd.openxmlformats-officedocument.spreadsheetml.sheet" ||
  f.type == "application/vnd.ms-excel"

/-- The rejection test of handleFileSelect line 591: no CSV or Excel
extension, and no CSV or Excel MIME type with a non-empty declared type. -/
def invalidFormatCheck (f : JsFile) : Bool :=
  !isCSVByExtension f && !isExcelByExtension f &&
    (!isCSVByType f && !isExcelByType f && f.type != "")

/-- The three-way file-kind classification realised by handleFileSelect:
rejected files are Unsupported, otherwise the isExcel test at line 621
routes the file to the Excel or the CSV pipeline. -/
inductive FileKind where
  | CSV
  | Excel
  | Unsupported
deriving Repr, DecidableEq

def classifyFile (f : JsFile) : FileKind :=
  if invalidFormatCheck f then FileKind.Unsupported
  else if isExcelByExtension f || isExcelByType f then FileKind.Excel
  else FileKind.CSV

/-- Splits a character list at the first occurrence of a pattern,
returning the part before it and the part after it. -/
def splitFirst (l pat : List Char) : Option (List Char × List Char) :=
  match l with
  | [] => if pat.isEmpty then some ([], []) else none
  | c :: rest =>
    if pat.isPrefixOf (c :: rest) then some ([], (c :: rest).drop pat.length)
    else match splitFirst rest pat with
      | some (b, a) => some (c :: b, a)
      | none => none

/-- JavaScript String.replace replaces only the first occurrence. -/
def replaceFirst (s pat rep : String) : String :=
  match splitFirst s.data pat.data with
  | some (b, a) => String.mk (b ++ rep.data ++ a)
  | none => s

/-- Drops the last n characters. -/
def dropRightStr (s : String) (n : Nat) : String :=
  String.mk (s.data.take (s.data.length - n))

/-- Strips a trailing .xlsx or .xls (case-insensitive, anchored at the
end), as the regex at line 1586 does. -/
def stripExcelExt (name : String) : String :=
  if jsEndsWith (jsToLower name) ".xlsx" then dropRightStr name 5
  else if jsEndsWith (jsToLower name) ".xls" then dropRightStr name 4
  else name

def guidancePlaceholder : String :=
  "Please describe what this dataset contains and its purpose"

def genSentinel : String := "Generating description..."

/-- The fresh loading-state FileUpload built at lines 618 to 622 for a
newly selected file; every field other than the file itself is a
constant. -/
def freshUpload (f : JsFile) : FileUpload :=
  { file := f, status := FileStatus.loading,
    isExcel := isExcelByExtension f || isExcelByType f }

/-- The synchronous prefix of handleFileSelect (lines 578 to 622): clear
notification and pending timer, reject unsupported formats, otherwise
wipe the previous FileUpload and the persisted record and install the
fresh loading FileUpload. -/
def fileSelectStart (f : JsFile) (s : ChatState) : ChatState :=
  let s1 := { s with errorBanner := none, errorTimer := none }
  if invalidFormatCheck f then
    { s1 with
      fileUpload :=
        some { file := f, status := FileStatus.error,
               errorMessage := some "Please upload a CSV or Excel file only" },
      errorBanner :=
        some { message := "Invalid file format",
               details := some "Please upload a CSV or Excel file only. Other file formats are not supported." },
      errorTimer := some TimerAction.clearFileAndBanner }
  else
    { s1 with fileUpload := some (freshUpload f), lastUploadedFile := none }

/-- Oracle for the CSV preview pipeline: outcome of the upload call and
of the subsequent preview call. -/
structure PreviewOracle where
  uploadResp : NetResult UploadData
  previewResp : NetResult PreviewData
deriving Repr, DecidableEq

/-- Marks the FileUpload as failed and schedules the 5000 ms timeout
that clears only the notification (the catch blocks of the preview
handlers at lines 816 to 861). -/
def previewFailure (banner e : String) (s : ChatState) : ChatState :=
  { s with
    errorBanner := some { message := banner, details := some e },
    fileUpload :=
      s.fileUpload.map (fun fu =>
        { fu with status := FileStatus.error, errorMessage := some e }),
    errorTimer := some TimerAction.clearBannerOnly }

/-- handleFilePreview (lines 700 to 880): the CSV branch resets the
session (best effort), uploads with a name derived from the file name
and a guidance-placeholder or reused description, fetches the preview,
and populates FilePreview / DatasetDescription; every failure marks the
FileUpload as error and schedules a banner-only timeout.  Returns the
new state and the endpoints called. -/
def handleFilePreview (file : JsFile) (isNewDataset : Bool)
    (ore : PreviewOracle) (s0 : ChatState) : ChatState × List NetCall :=
  let s := { s0 with errorBanner := none, errorTimer := none }
  if file.type == "text/csv" || jsEndsWith (jsToLower file.name) ".csv" then
    let savedDescription := s.datasetDescription.description
    let isCustomDescription :=
      savedDescription != "Preview dataset" && savedDescription != ""
    let useGuidancePlaceholder := isNewDataset || !isCustomDescription
    let resetCalls := if s.sessionId.isSome then [NetCall.resetSession] else []
    let existingDescription :=
      if useGuidancePlaceholder then guidancePlaceholder else savedDescription
    let tempName := replaceFirst file.name ".csv" ""
    match ore.uploadResp with
    | NetResult.err e =>
        (previewFailure "File preview failed" e s,
         resetCalls ++ [NetCall.uploadDataframe])
    | NetResult.ok u =>
        let s := match u.datasetUploadId with
          | some i => { s with fileUpload := s.fileUpload.map (fun fu =>
              { fu with datasetUploadId := some i }) }
          | none => s
        match ore.previewResp with
        | NetResult.err e =>
            (previewFailure "File preview failed" e s,
             resetCalls ++ [NetCall.uploadDataframe, NetCall.previewCsv])
        | NetResult.ok p =>
            let descriptionToUse :=
              if isNewDataset then guidancePlaceholder
              else if isCustomDescription then savedDescription
              else if p.description != "" then p.description
              else existingDescription
            let nameToUse := if p.name != "" then p.name else tempName
            let pv : FilePreview :=
              { headers := p.headers, rows := p.rows,
                name := nameToUse, description := descriptionToUse }
            ({ s with
              filePreview := some pv,
              datasetDescription :=
                { name := nameToUse, description := descriptionToUse },
              showPreview := true,
              sessionId := match u.sessionId with
                | some sid => some sid
                | none => s.sessionId,
              autoDescribeScheduled := isNewDataset &&
                (descriptionToUse == guidancePlaceholder ||
                 descriptionToUse == "") },
             resetCalls ++ [NetCall.uploadDataframe, NetCall.previewCsv])
  else
    ({ s with
      errorBanner :=
        some { message := "Invalid file format",
               details := some "Please upload a CSV file. Other file formats are not supported." },
      fileUpload :=
        s.fileUpload.map (fun fu =>
          { fu with status := FileStatus.error,
                    errorMessage := some "Please upload a CSV file only" }),
      errorTimer := some TimerAction.clearBannerOnly }, [])

/-- The catch block of the Excel sheet-enumeration step (lines 657 to
675): error-status FileUpload, notification, and a 5000 ms timeout that
clears the FileUpload, the persisted record and the notification. -/
def excelEnumerationFailure (e : String) (s : ChatState) : ChatState :=
  { s with
    fileUpload :=
      s.fileUpload.map (fun fu =>
        { fu with status := FileStatus.error,
                  errorMessage := some ("Excel error: " ++ e) }),
    errorBanner :=
      some { message := "Excel processing failed", details := some e },
    errorTimer := some TimerAction.clearFileAndBanner }

/-- Oracle for a whole handleFileSelect run. -/
structure SelectOracle where
  sheetsResp : NetResult (List String)
  preview : PreviewOracle
deriving Repr, DecidableEq

/-- handleFileSelect (lines 575 to 698).  After the synchronous prefix,
an Excel file goes through sheet enumeration (success stores the sheets,
picks the first as default and opens the sheet selector); a CSV file
runs handleFilePreview and then unconditionally sets the status to
success (line 679), even when the preview failed. -/
def handleFileSelect (f : JsFile) (ore : SelectOracle)
    (s : ChatState) : ChatState × List NetCall :=
  let s1 := fileSelectStart f s
  if invalidFormatCheck f then (s1, [])
  else if isExcelByExtension f || isExcelByType f then
    match ore.sheetsResp with
    | NetResult.ok sheets =>
        if !sheets.isEmpty then
          ({ s1 with
            fileUpload :=
              s1.fileUpload.map (fun fu =>
                { fu with sheets := some sheets,
                          selectedSheet := sheets.head?,
                          status := FileStatus.success }),
            showSheetSelector := true }, [NetCall.excelSheets])
        else
          (excelEnumerationFailure "No sheets found in Excel file" s1,
           [NetCall.excelSheets])
    | NetResult.err e =>
        (excelEnumerationFailure e s1, [NetCall.excelSheets])
  else
    let r := handleFilePreview f true ore.preview s1
    ({ r.fst with fileUpload := r.fst.fileUpload.map (fun fu =>
        { fu with status := FileStatus.success }) }, r.snd)

/-- handlePreviewDefaultDataset (lines 1027 to 1093): unconditionally
clears the FileUpload, the persisted record and the file input, resets
the session (best effort), fetches the default dataset, and on success
fills FilePreview / DatasetDescription, opens the preview and clears the
mismatch flags; on fetch failure it only logs. -/
def handlePreviewDefaultDataset (ore : NetResult DefaultDatasetData)
    (s0 : ChatState) : ChatState × List NetCall :=
  let s1 := { s0 with fileUpload := none, lastUploadedFile := none,
                      fileInputFiles := [] }
  match ore with
  | NetResult.err _ => (s1, [NetCall.resetSession, NetCall.defaultDataset])
  | NetResult.ok d =>
      let defaultDescription :=
        if d.description != "" then d.description
        else "Default housing dataset containing information about residential properties"
      let pv : FilePreview :=
        { headers := d.headers, rows := d.rows, name := d.name,
          description := defaultDescription }
      ({ s1 with
        filePreview := some pv,
        datasetDescription :=
          { name := if d.name != "" then d.name else "Dataset",
            description := defaultDescription },
        showPreview := true,
        sessionId := match d.sessionId with
          | some sid => some sid
          | none => s1.sessionId,
        datasetMismatch := false,
        showDatasetResetPopup := false },
       [NetCall.resetSession, NetCall.defaultDataset])

/-- handleSilentDefaultDataset (lines 1095 to 1162): identical to the
preview variant except that it never opens the preview dialog. -/
def handleSilentDefaultDataset (ore : NetResult DefaultDatasetData)
    (s0 : ChatState) : ChatState × List NetCall :=
  let s1 := { s0 with fileUpload := none, lastUploadedFile := none,
                      fileInputFiles := [] }
  match ore with
  | NetResult.err _ => (s1, [NetCall.resetSession, NetCall.defaultDataset])
  | NetResult.ok d =>
      let defaultDescription :=
        if d.description != "" then d.description
        else "Default housing dataset containing information about residential properties"
      let pv : FilePreview :=
        { headers := d.headers, rows := d.rows, name := d.name,
          description := defaultDescription }
      ({ s1 with
        filePreview := some pv,
        datasetDescription :=
          { name := if d.name != "" then d.name else "Dataset",
            description := defaultDescription },
        sessionId := match d.sessionId with
          | some sid => some sid
          | none => s1.sessionId,
        datasetMismatch := false,
        showDatasetResetPopup := false },
       [NetCall.resetSession, NetCall.defaultDataset])

/-- Oracle for handleUploadWithDescription: the final upload call of the
custom-file branch, and the reset-session call of the default branch. -/
structure CommitOracle where
  uploadResp : NetResult UploadData
  resetResp : NetResult UploadData
deriving Repr, DecidableEq

/-- handleUploadWithDescription (lines 1164 to 1375), the commit step.
With an empty name or description it only shows the Missing information
notification.  Otherwise, with a file at hand (file input first, then
the FileUpload state), a zero-size file with no modification time and an
empty file input is treated as a localStorage mock: the state is cleared
and the user is sent back to file selection, with no network call.  A
real file is re-uploaded to upload_excel or upload_dataframe with the
final metadata, and on acceptance the FileUpload and the persisted
record are rewritten under a synthetic .csv identity.  With no file, the
session is updated through reset-session. -/
def handleUploadWithDescription (ore : CommitOracle)
    (s : ChatState) : ChatState × List NetCall :=
  if s.datasetDescription.name == "" || s.datasetDescription.description == "" then
    ({ s with
      errorBanner :=
        some { message := "Missing information",
               details := some "Please provide both a name and description for the dataset" },
      errorTimer := some TimerAction.clearBannerOnly }, [])
  else
    let s1 := { s with errorBanner := none, errorTimer := none }
    let actualFile : Option JsFile :=
      match s1.fileInputFiles.head? with
      | some f => some f
      | none => match s1.fileUpload with
        | some fu => some fu.file
        | none => none
    match actualFile with
    | some f =>
      let isMockFile :=
        f.size == 0 && s1.fileInputFiles.isEmpty && f.lastModified == 0
      if isMockFile then
        ({ s1 with fileUpload := none, lastUploadedFile := none,
                   fileInputFiles := [], showPreview := false }, [])
      else
        let resetCalls :=
          if s1.sessionId.isSome then [NetCall.resetSession] else []
        let isExcelFile :=
          (match s1.fileUpload with
           | some fu => fu.isExcel
           | none => false) ||
          jsEndsWith (jsToLower f.name) ".xlsx" ||
          jsEndsWith (jsToLower f.name) ".xls"
        let endpoint :=
          if isExcelFile then NetCall.uploadExcel else NetCall.uploadDataframe
        match ore.uploadResp with
        | NetResult.err _ => (s1, resetCalls ++ [endpoint])
        | NetResult.ok u =>
          let updatedFileName :=
            if jsEndsWith s1.datasetDescription.name ".csv" then
              s1.datasetDescription.name
            else s1.datasetDescription.name ++ ".csv"
          let updatedFile : JsFile :=
            { name := updatedFileName, type := "text/csv",
              lastModified := f.lastModified, size := f.size }
          let priorSheets := match s1.fileUpload with
            | some fu => fu.sheets
            | none => none
          let priorSelected := match s1.fileUpload with
            | some fu => fu.selectedSheet
            | none => none
          let committed : FileUpload :=
            { file := updatedFile, status := FileStatus.success,
              isExcel := isExcelFile, sheets := priorSheets,
              selectedSheet := priorSelected }
          let stored : StoredFileInfo :=
            { name := updatedFileName, type := "text/csv",
              lastModified := f.lastModified, isExcel := isExcelFile,
              selectedSheet := priorSelected }
          ({ s1 with
            sessionId := match u.sessionId with
              | some sid => some sid
              | none => s1.sessionId,
            showPreview := false,
            uploadSuccess := true,
            fileUpload := some committed,
            lastUploadedFile := some stored }, resetCalls ++ [endpoint])
    | none =>
      match ore.resetResp with
      | NetResult.err _ => (s1, [NetCall.resetSession])
      | NetResult.ok u =>
        ({ s1 with
          sessionId := match u.sessionId with
            | some sid => some sid
            | none => s1.sessionId,
          showPreview := false,
          uploadSuccess := true }, [NetCall.resetSession])

/-- checkSessionDataset (lines 466 to 532), the mount/session-change
reconciler.  now is the clock value used for the lastModified field of a
freshly constructed placeholder File.  Case A: server custom plus a
stored record and no in-memory FileUpload restores a zero-byte
placeholder with success status.  Case B: server custom, no record, no
FileUpload synthesizes a placeholder success FileUpload and sets the
mismatch flag (the popup line is commented out in the source).  Case C:
server not custom while the FileUpload shows success sets the mismatch
flag and opens the reset popup.  Case D: otherwise clears the FileUpload
and the record. -/
def checkSessionDataset (ore : NetResult SessionInfoData) (now : Nat)
    (s : ChatState) : ChatState × List NetCall :=
  match s.sessionId with
  | none => (s, [])
  | some _ =>
    match ore with
    | NetResult.err _ => (s, [NetCall.sessionInfo])
    | NetResult.ok info =>
      if info.isCustomDataset then
        let customName :=
          if info.datasetName != "" then info.datasetName else "Custom Dataset"
        match s.fileUpload, s.lastUploadedFile with
        | none, some stored =>
            let mock : JsFile :=
              { name := stored.name, type := stored.type,
                lastModified := stored.lastModified, size := 0 }
            ({ s with fileUpload := some { file := mock, status := FileStatus.success } },
             [NetCall.sessionInfo])
        | none, none =>
            let mock : JsFile :=
              { name := customName ++ ".csv", type := "text/csv",
                lastModified := now, size := 0 }
            ({ s with
              fileUpload := some { file := mock, status := FileStatus.success },
              datasetMismatch := true }, [NetCall.sessionInfo])
        | some _, _ => (s, [NetCall.sessionInfo])
      else
        match s.fileUpload with
        | some fu =>
          if fu.status = FileStatus.success then
            ({ s with datasetMismatch := true, showDatasetResetPopup := true },
             [NetCall.sessionInfo])
          else
            ({ s with fileUpload := none, lastUploadedFile := none },
             [NetCall.sessionInfo])
        | none =>
            ({ s with fileUpload := none, lastUploadedFile := none },
             [NetCall.sessionInfo])

/-- generateDatasetDescription (lines 1418 to 1457).  The description is
set to the generating sentinel; userEdit models a concurrent user edit
arriving while the backend call is suspended.  On success a non-empty
returned description replaces whatever is current; on failure the
description is reset to the empty string exactly when it still equals
the sentinel, otherwise it is kept. -/
def generateDatasetDescription (resp : NetResult String)
    (userEdit : Option String) (s : ChatState) : ChatState × List NetCall :=
  match s.sessionId with
  | none => (s, [])
  | some _ =>
    let s1 := { s with
      isGeneratingDescription := true,
      datasetDescription :=
        { s.datasetDescription with description := genSentinel } }
    let s2 := match userEdit with
      | some t => { s1 with datasetDescription :=
          { s1.datasetDescription with description := t } }
      | none => s1
    match resp with
    | NetResult.ok d =>
        let s3 :=
          if d != "" then
            { s2 with datasetDescription :=
                { s2.datasetDescription with description := d } }
          else s2
        ({ s3 with isGeneratingDescription := false }, [NetCall.createDescription])
    | NetResult.err _ =>
        let s3 := { s2 with datasetDescription :=
            { s2.datasetDescription with description :=
                if s2.datasetDescription.description == genSentinel then ""
                else s2.datasetDescription.description } }
        ({ s3 with isGeneratingDescription := false }, [NetCall.createDescription])

/-- handleExcelSheetPreview (lines 1540 to 1735): resets the session
(best effort), re-uploads the file to upload_excel with the selected
sheet, marks the FileUpload with the sheet and success, fetches the
preview and fills FilePreview / DatasetDescription; both failure paths
end with the outermost catch banner and a banner-only timeout. -/
def handleExcelSheetPreview (file : JsFile) (sheetName : String)
    (isNewDataset : Bool) (ore : PreviewOracle)
    (s0 : ChatState) : ChatState × List NetCall :=
  let s := { s0 with errorBanner := none, errorTimer := none }
  let savedDescription := s.datasetDescription.description
  let isCustomDescription :=
    savedDescription != "Preview dataset" && savedDescription != ""
  let useGuidancePlaceholder := isNewDataset || !isCustomDescription
  let resetCalls := if s.sessionId.isSome then [NetCall.resetSession] else []
  let existingDescription :=
    if useGuidancePlaceholder then guidancePlaceholder else savedDescription
  let tempName := stripExcelExt file.name ++ " - " ++ sheetName
  match ore.uploadResp with
  | NetResult.err e =>
      (previewFailure "Excel sheet preview failed" e s,
       resetCalls ++ [NetCall.uploadExcel])
  | NetResult.ok u =>
      let s := { s with
        fileUpload :=
          s.fileUpload.map (fun fu =>
            { fu with selectedSheet := some sheetName,
                      datasetUploadId := match u.datasetUploadId with
                        | some i => some i
                        | none => fu.datasetUploadId,
                      status := FileStatus.success }) }
      match ore.previewResp with
      | NetResult.err e =>
          (previewFailure "Excel sheet preview failed" e s,
           resetCalls ++ [NetCall.uploadExcel, NetCall.previewCsv])
      | NetResult.ok p =>
          let descriptionToUse :=
            if isNewDataset then guidancePlaceholder
            else if isCustomDescription then savedDescription
            else if p.description != "" then p.description
            else existingDescription
          let nameToUse := if p.name != "" then p.name else tempName
          let pv : FilePreview :=
            { headers := p.headers, rows := p.rows,
              name := nameToUse, description := descriptionToUse }
          ({ s with
            filePreview := some pv,
            datasetDescription :=
              { name := nameToUse, description := descriptionToUse },
            showPreview := true,
            sessionId := match u.sessionId with
              | some sid => some sid
              | none => s.sessionId,
            autoDescribeScheduled := isNewDataset &&
              (descriptionToUse == guidancePlaceholder ||
               descriptionToUse == "") },
           resetCalls ++ [NetCall.uploadExcel, NetCall.previewCsv])

/-- handleSheetSelectionConfirm (lines 1738 to 1777): with a file and a
selected sheet, marks the FileUpload loading, runs the sheet preview,
then sets the status back to success (the preview call never throws out
of its own catch) and closes the selector dialog. -/
def handleSheetSelectionConfirm (ore : PreviewOracle)
    (s : ChatState) : ChatState × List NetCall :=
  match s.fileUpload with
  | some fu =>
    match fu.selectedSheet with
    | some sheet =>
        let loadingFu : FileUpload := { fu with status := FileStatus.loading }
        let s1 := { s with fileUpload := some loadingFu }
        let r := handleExcelSheetPreview fu.file sheet true ore s1
        ({ r.fst with
          fileUpload :=
            r.fst.fileUpload.map (fun x => { x with status := FileStatus.success }),
          showSheetSelector := false }, r.snd)
    | none => (s, [])
  | none => (s, [])

/-- Oracle for handleDatasetReset: the re-preview pipeline of the keep
branch and the default-dataset fetch of the discard branch. -/
structure ResetOracle where
  preview : PreviewOracle
  defaultData : NetResult DefaultDatasetData
deriving Repr, DecidableEq

/-- handleDatasetReset (lines 1460 to 1537), the mismatch-resolution
handler.  Keeping the custom data with a zero-size (mock) file clears
everything and sends the user back to file selection; with a real file
it re-runs the CSV preview.  Discarding clears the FileUpload and the
record and loads the default dataset.  Every branch closes the popup and
clears the mismatch flag. -/
def handleDatasetReset (keepCustomData : Bool) (ore : ResetOracle)
    (s : ChatState) : ChatState × List NetCall :=
  match s.fileUpload with
  | some fu =>
    if keepCustomData then
      if fu.file.size == 0 then
        ({ s with fileUpload := none, lastUploadedFile := none,
                  fileInputFiles := [], showDatasetResetPopup := false,
                  datasetMismatch := false }, [])
      else
        let r := handleFilePreview fu.file false ore.preview s
        ({ r.fst with showDatasetResetPopup := false,
                      datasetMismatch := false }, r.snd)
    else
      let s1 := { s with fileUpload := none, lastUploadedFile := none }
      let r := handlePreviewDefaultDataset ore.defaultData s1
      ({ r.fst with showDatasetResetPopup := false,
                    datasetMismatch := false }, r.snd)
  | none =>
      let s1 := { s with fileUpload := none, lastUploadedFile := none }
      let r := handlePreviewDefaultDataset ore.defaultData s1
      ({ r.fst with showDatasetResetPopup := false,
                    datasetMismatch := false }, r.snd)

/-- The sheet-selection dialog onOpenChange handler for a close event
(lines 2357 to 2368): if no preview has been opened, the FileUpload and
the persisted record are cleared; the selector always closes. -/
def sheetDialogDismiss (s : ChatState) : ChatState :=
  let s1 :=
    if !s.showPreview then
      { s with fileUpload := none, lastUploadedFile := none }
    else s
  { s1 with showSheetSelector := false }

/-- The sheet-selection dialog Cancel button (lines 2407 to 2417):
closes the selector and clears the FileUpload and the persisted record
unconditionally. -/
def sheetDialogCancel (s : ChatState) : ChatState :=
  { s with showSheetSelector := false, fileUpload := none,
           lastUploadedFile := none }

example :
    classifyFile { name := "a.csv", type := "text/csv", lastModified := 1, size := 5 } =
      FileKind.CSV := by decide

example :
    classifyFile { name := "b.xlsx", type := "", lastModified := 1, size := 5 } =
      FileKind.Excel := by decide

example :
    classifyFile { name := "c.pdf", type := "application/pdf", lastModified := 1, size := 5 } =
      FileKind.Unsupported := by decide

example :
    classifyFile { name := "d.txt", type := "", lastModified := 1, size := 5 } =
      FileKind.CSV := by decide

/-! ## Claim C8: generation failure and concurrent user edits -/

/-- C8: when automatic description generation fails, the description is
reverted to the empty string exactly when it still holds the generating
sentinel at that moment; a user edit that replaced the sentinel during
generation is preserved.  The dataset name is untouched and the
generation lock is released. -/
theorem C8_generation_failure_user_edit_wins (s : ChatState) (sid e : String)
    (userEdit : Option String) (hs : s.sessionId = some sid) :
    (userEdit = none →
      ((generateDatasetDescription (NetResult.err e) userEdit s).fst).datasetDescription.description = "") ∧
    (∀ t, userEdit = some t → t ≠ genSentinel →
      ((generateDatasetDescription (NetResult.err e) userEdit s).fst).datasetDescription.description = t) ∧
    ((generateDatasetDescription (NetResult.err e) userEdit s).fst).datasetDescription.name =
      s.datasetDescription.name ∧
    ((generateDatasetDescription (NetResult.err e) userEdit s).fst).isGeneratingDescription = false := by
  unfold generateDatasetDescription
  rw [hs]
  refine ⟨?_, ?_, ?_, ?_⟩
  · intro hu
    subst hu
    simp
  · intro t hu ht
    subst hu
    have hb : (t == genSentinel) = false := beq_eq_false_iff_ne.mpr ht
    simp [hb]
  · cases userEdit <;> simp
  · cases userEdit <;> simp

def c8State : ChatState :=
  { sessionId := some "sess-1",
    datasetDescription := { name := "Sales", description := "" } }

/-- C8 witness: a concrete failing generation with and without a
concurrent user edit. -/
theorem C8_witness :
    ((generateDatasetDescription (NetResult.err "backend down") none c8State).fst).datasetDescription.description = "" ∧
    ((generateDatasetDescription (NetResult.err "backend down") (some "my own words") c8State).fst).datasetDescription.description = "my own words" :=
  ⟨(C8_generation_failure_user_edit_wins c8State "sess-1" "backend down" none rfl).1 rfl,
   (C8_generation_failure_user_edit_wins c8State "sess-1" "backend down"
      (some "my own words") rfl).2.1 "my own words" rfl (by decide)⟩

/-! ## Claim C9: commit refused on missing metadata -/

/-- C9: a commit invocation with an empty dataset name or an empty
description makes no network call of any kind, shows the Missing
information notification with a banner-only timeout, and leaves the
FileUpload, FilePreview, DatasetDescription, persisted record, preview
dialog and session identity unchanged. -/
theorem C9_commit_missing_metadata_refused (s : ChatState) (ore : CommitOracle)
    (h : s.datasetDescription.name = "" ∨ s.datasetDescription.description = "") :
    (handleUploadWithDescription ore s).snd = [] ∧
    ((handleUploadWithDescription ore s).fst).fileUpload = s.fileUpload ∧
    ((handleUploadWithDescription ore s).fst).filePreview = s.filePreview ∧
    ((handleUploadWithDescription ore s).fst).datasetDescription = s.datasetDescription ∧
    ((handleUploadWithDescription ore s).fst).lastUploadedFile = s.lastUploadedFile ∧
    ((handleUploadWithDescription ore s).fst).showPreview = s.showPreview ∧
    ((handleUploadWithDescription ore s).fst).sessionId = s.sessionId ∧
    ((handleUploadWithDescription ore s).fst).errorBanner =
      some { message := "Missing information",
             details := some "Please provide both a name and description for the dataset" } ∧
    ((handleUploadWithDescription ore s).fst).errorTimer = some TimerAction.clearBannerOnly := by
  unfold handleUploadWithDescription
  rcases h with h | h
  · have hb : (s.datasetDescription.name == "") = true := beq_iff_eq.mpr h
    simp [hb]
  · have hb : (s.datasetDescription.description == "") = true := beq_iff_eq.mpr h
    simp [hb]

def c9State : ChatState :=
  { datasetDescription := { name := "", description := "some text" },
    fileUpload := some { file := { name := "a.csv", type := "text/csv",
                                   lastModified := 4, size := 20 },
                         status := FileStatus.success },
    sessionId := some "sess-2" }

def c9Ore : CommitOracle :=
  { uploadResp := NetResult.ok {}, resetResp := NetResult.ok {} }

/-- C9 witness: a concrete commit with an empty name. -/
theorem C9_witness :
    (handleUploadWithDescription c9Ore c9State).snd = [] ∧
    ((handleUploadWithDescription c9Ore c9State).fst).fileUpload = c9State.fileUpload ∧
    ((handleUploadWithDescription c9Ore c9State).fst).filePreview = c9State.filePreview ∧
    ((handleUploadWithDescription c9Ore c9State).fst).datasetDescription = c9State.datasetDescription ∧
    ((handleUploadWithDescription c9Ore c9State).fst).lastUploadedFile = c9State.lastUploadedFile ∧
    ((handleUploadWithDescription c9Ore c9State).fst).showPreview = c9State.showPreview ∧
    ((handleUploadWithDescription c9Ore c9State).fst).sessionId = c9State.sessionId ∧
    ((handleUploadWithDescription c9Ore c9State).fst).errorBanner =
      some { message := "Missing information",
             details := some "Please provide both a name and description for the dataset" } ∧
    ((handleUploadWithDescription c9Ore c9State).fst).errorTimer = some TimerAction.clearBannerOnly :=
  C9_commit_missing_metadata_refused c9State c9Ore (Or.inl rfl)

/-! ## Claim C10: cancelling the sheet selector returns to idle -/

/-- C10: when the sheet-selection dialog is dismissed or cancelled
before any preview has been opened (showPreview is still false), the
FileUpload is cleared, the persisted record is removed and the selector
closes, returning the system to the no-file idle state. -/
theorem C10_sheet_dialog_cancel_resets (s : ChatState)
    (h : s.showPreview = false) :
    (sheetDialogDismiss s).fileUpload = none ∧
    (sheetDialogDismiss s).lastUploadedFile = none ∧
    (sheetDialogDismiss s).showSheetSelector = false ∧
    (sheetDialogCancel s).fileUpload = none ∧
    (sheetDialogCancel s).lastUploadedFile = none ∧
    (sheetDialogCancel s).showSheetSelector = false := by
  unfold sheetDialogDismiss sheetDialogCancel
  simp [h]

def c10State : ChatState :=
  { fileUpload := some { file := { name := "book.xlsx", type := "",
                                   lastModified := 9, size := 300 },
                         status := FileStatus.success, isExcel := true,
                         sheets := some ["Sheet1", "Sheet2"],
                         selectedSheet := some "Sheet1" },
    lastUploadedFile := some { name := "book.xlsx", type := "", lastModified := 9 },
    showSheetSelector := true }

/-- C10 witness: a concrete dismissal with a pending Excel selection. -/
theorem C10_witness :
    (sheetDialogDismiss c10State).fileUpload = none ∧
    (sheetDialogDismiss c10State).lastUploadedFile = none ∧
    (sheetDialogDismiss c10State).showSheetSelector = false ∧
    (sheetDialogCancel c10State).fileUpload = none ∧
    (sheetDialogCancel c10State).lastUploadedFile = none ∧
    (sheetDialogCancel c10State).showSheetSelector = false :=
  C10_sheet_dialog_cancel_resets c10State rfl

/-! ## Claim C1: when the persisted record is written -/

/-- Helper: both outcomes of the default-dataset preview path leave the
persisted record cleared. -/
theorem handlePreviewDefaultDataset_record_none (ore : NetResult DefaultDatasetData)
    (s : ChatState) :
    ((handlePreviewDefaultDataset ore s).fst).lastUploadedFile = none := by
  unfold handlePreviewDefaultDataset
  cases ore <;> simp

def c1File : JsFile :=
  { name := "book.xlsx", type := "", lastModified := 111, size := 2048 }

def c1Ore : SelectOracle :=
  { sheetsResp := NetResult.ok ["Sheet1", "Sheet2"],
    preview := { uploadResp := NetResult.err "unused",
                 previewResp := NetResult.err "unused" } }

/-- C1 counterexample: selecting an Excel file and merely succeeding at
sheet enumeration (the only endpoint called is excel-sheets, so no
commit happened) already makes the render-time persistence effect create
the lastUploadedFile record, contradicting the claim that no operation
other than a successful commit ever writes it. -/
theorem C1_counterexample :
    (handleFileSelect c1File c1Ore {}).snd = [NetCall.excelSheets] ∧
    (persistEffect (handleFileSelect c1File c1Ore {}).fst).lastUploadedFile =
      some { name := "book.xlsx", type := "", lastModified := 111 } := by decide

/-- C1 amended: the persisted record is not written only on commit; the
persistence effect mirrors the in-memory FileUpload into the record
whenever its status is success (and leaves the record alone otherwise),
so any operation that produces a success FileUpload writes it.  The
deletion clauses hold: detecting that the server has no custom dataset
(with no in-memory FileUpload) clears the record, and the explicit
discard resolution clears it through the default-dataset path. -/
theorem C1_amended_record_written_on_success (s : ChatState) :
    (∀ fu, s.fileUpload = some fu → fu.status = FileStatus.success →
        (persistEffect s).lastUploadedFile =
          some { name := fu.file.name, type := fu.file.type,
                 lastModified := fu.file.lastModified }) ∧
    ((∀ fu, s.fileUpload = some fu → fu.status ≠ FileStatus.success) →
        (persistEffect s).lastUploadedFile = s.lastUploadedFile) ∧
    (∀ sid info now, s.sessionId = some sid → info.isCustomDataset = false →
        s.fileUpload = none →
        ((checkSessionDataset (NetResult.ok info) now s).fst).lastUploadedFile = none) ∧
    (∀ ore, ((handleDatasetReset false ore s).fst).lastUploadedFile = none) := by
  refine ⟨?_, ?_, ?_, ?_⟩
  · intro fu hfu hst
    unfold persistEffect
    rw [hfu]
    simp [hst]
  · intro h
    unfold persistEffect
    cases hfu : s.fileUpload with
    | none => rfl
    | some fu =>
        have := h fu hfu
        simp [this]
  · intro sid info now hsid hinfo hfu
    unfold checkSessionDataset
    rw [hsid]
    simp [hinfo, hfu]
  · intro ore
    unfold handleDatasetReset
    cases s.fileUpload with
    | none => simpa using handlePreviewDefaultDataset_record_none ore.defaultData _
    | some fu => simpa using handlePreviewDefaultDataset_record_none ore.defaultData _

def c1State : ChatState :=
  { fileUpload := some { file := c1File, status := FileStatus.success,
                         isExcel := true },
    lastUploadedFile := none,
    sessionId := some "sess-3" }

/-- C1 witness: the amended characterisation evaluated at a concrete
success FileUpload, a concrete not-custom session-info response, and a
concrete discard resolution. -/
theorem C1_witness :
    (persistEffect c1State).lastUploadedFile =
      some { name := "book.xlsx", type := "", lastModified := 111 } ∧
    ((checkSessionDataset
        (NetResult.ok { isCustomDataset := false, datasetName := "", datasetDescription := "" })
        0 { sessionId := some "sess-3" }).fst).lastUploadedFile = none ∧
    ((handleDatasetReset false
        { preview := { uploadResp := NetResult.err "x", previewResp := NetResult.err "x" },
          defaultData := NetResult.err "x" } c1State).fst).lastUploadedFile = none :=
  ⟨(C1_amended_record_written_on_success c1State).1 _ rfl rfl,
   (C1_amended_record_written_on_success { sessionId := some "sess-3" }).2.2.1
      "sess-3" _ 0 rfl rfl rfl,
   (C1_amended_record_written_on_success c1State).2.2.2 _⟩

/-! ## Claim C2: what the 5-unit error timeout actually clears -/

def c2File : JsFile :=
  { name := "data.csv", type := "text/csv", lastModified := 7, size := 10 }

def c2Ore : SelectOracle :=
  { sheetsResp := NetResult.err "unused",
    preview := { uploadResp := NetResult.err "boom",
                 previewResp := NetResult.err "boom" } }

def c2Post : ChatState := (handleFileSelect c2File c2Ore {}).fst

/-- C2 counterexample: after an upload failure inside the CSV preview
pipeline the scheduled timeout only clears the notification, and
handleFileSelect even flips the status back to success; firing the timer
leaves the FileUpload (with its error message) in place, so neither the
FileUpload nor the persisted record is cleared to unset by the delay. -/
theorem C2_counterexample :
    c2Post.errorTimer = some TimerAction.clearBannerOnly ∧
    c2Post.fileUpload =
      some { file := c2File, status := FileStatus.success,
             errorMessage := some "boom" } ∧
    (fireErrorTimer c2Post).fileUpload = c2Post.fileUpload := by decide

/-- C2 amended: every failure sets an error status, a notification and a
5-unit timeout, but what the timeout clears depends on the failure site.
Failures detected in handleFileSelect itself (invalid format, sheet
enumeration) schedule a timer that clears the FileUpload, the persisted
record and the notification; failures inside the CSV upload/preview step
schedule a timer that clears only the notification, and the FileUpload
(whose status handleFileSelect then flips back to success) survives the
delay window. -/
theorem C2_amended_timeout_behaviour (s : ChatState) (f : JsFile)
    (ore : SelectOracle) (e : String) :
    (invalidFormatCheck f = true →
        (handleFileSelect f ore s).fst.errorTimer = some TimerAction.clearFileAndBanner ∧
        (handleFileSelect f ore s).fst.fileUpload =
          some { file := f, status := FileStatus.error,
                 errorMessage := some "Please upload a CSV or Excel file only" } ∧
        (fireErrorTimer (handleFileSelect f ore s).fst).fileUpload = none ∧
        (fireErrorTimer (handleFileSelect f ore s).fst).lastUploadedFile = none ∧
        (fireErrorTimer (handleFileSelect f ore s).fst).errorBanner = none) ∧
    (invalidFormatCheck f = false →
        (isExcelByExtension f || isExcelByType f) = true →
        ore.sheetsResp = NetResult.err e →
        (handleFileSelect f ore s).fst.errorTimer = some TimerAction.clearFileAndBanner ∧
        (handleFileSelect f ore s).fst.fileUpload.map FileUpload.status =
          some FileStatus.error ∧
        (fireErrorTimer (handleFileSelect f ore s).fst).fileUpload = none ∧
        (fireErrorTimer (handleFileSelect f ore s).fst).lastUploadedFile = none) ∧
    (invalidFormatCheck f = false →
        (isExcelByExtension f || isExcelByType f) = false →
        (f.type == "text/csv" || jsEndsWith (jsToLower f.name) ".csv") = true →
        ore.preview.uploadResp = NetResult.err e →
        (handleFileSelect f ore s).fst.errorTimer = some TimerAction.clearBannerOnly ∧
        (handleFileSelect f ore s).fst.fileUpload.map FileUpload.status =
          some FileStatus.success ∧
        (fireErrorTimer (handleFileSelect f ore s).fst).fileUpload =
          (handleFileSelect f ore s).fst.fileUpload ∧
        (fireErrorTimer (handleFileSelect f ore s).fst).lastUploadedFile =
          (handleFileSelect f ore s).fst.lastUploadedFile) := by
  refine ⟨?_, ?_, ?_⟩
  · intro h1
    unfold handleFileSelect fileSelectStart
    simp [h1, fireErrorTimer]
  · intro h1 h2 h3
    unfold handleFileSelect fileSelectStart excelEnumerationFailure freshUpload
    simp [h1, h2, h3, fireErrorTimer]
  · intro h1 h2 h3 h4
    unfold handleFileSelect fileSelectStart handleFilePreview previewFailure freshUpload
    simp [h1, h2, h3, h4, fireErrorTimer]

def c2BadFile : JsFile :=
  { name := "notes.pdf", type := "application/pdf", lastModified := 2, size := 4 }

def c2ExcelFile : JsFile :=
  { name := "book.xls", type := "application/vnd.ms-excel",
    lastModified := 3, size := 6 }

def c2FailOre : SelectOracle :=
  { sheetsResp := NetResult.err "enumeration failed",
    preview := { uploadResp := NetResult.err "boom",
                 previewResp := NetResult.err "boom" } }

/-- C2 witness: the amended timeout behaviour at a concrete invalid
file, a concrete failing sheet enumeration, and a concrete failing CSV
upload. -/
theorem C2_witness :
    (fireErrorTimer (handleFileSelect c2BadFile c2FailOre {}).fst).fileUpload = none ∧
    (fireErrorTimer (handleFileSelect c2ExcelFile c2FailOre {}).fst).fileUpload = none ∧
    (handleFileSelect c2File c2FailOre {}).fst.fileUpload.map FileUpload.status =
      some FileStatus.success :=
  ⟨((C2_amended_timeout_behaviour {} c2BadFile c2FailOre "x").1 (by decide)).2.2.1,
   ((C2_amended_timeout_behaviour {} c2ExcelFile c2FailOre "enumeration failed").2.1
      (by decide) (by decide) rfl).2.2.1,
   ((C2_amended_timeout_behaviour {} c2File c2FailOre "boom").2.2
      (by decide) (by decide) (by decide) rfl).2.1⟩

/-! ## Claim C3: mismatch flag versus blocked Success -/

def c3State : ChatState := { sessionId := some "sess-9" }

def c3Info : SessionInfoData :=
  { isCustomDataset := true, datasetName := "Sales", datasetDescription := "d" }

def c3Post : ChatState := (checkSessionDataset (NetResult.ok c3Info) 42 c3State).fst

/-- C3 counterexample: in Case B (server custom, no local record) the
reconciler sets the mismatch flag but at the same moment installs a
placeholder FileUpload already in Success status, without showing the
resolution popup, so no user resolution is required before Success. -/
theorem C3_counterexample :
    c3Post.datasetMismatch = true ∧
    c3Post.fileUpload.map FileUpload.status = some FileStatus.success ∧
    c3Post.showDatasetResetPopup = false := by decide

/-- C3 amended: Case B and Case C both set the mismatch flag, but
neither blocks the Success status on resolution.  Case B synthesizes a
placeholder Success FileUpload immediately and leaves the reset popup
untouched; Case C keeps the existing Success FileUpload and the record
while opening the reset popup.  The resolution handler is what clears
the flag and the popup, in every branch. -/
theorem C3_amended_mismatch_not_blocking (s : ChatState) (sid : String)
    (info : SessionInfoData) (now : Nat) :
    (s.sessionId = some sid → s.fileUpload = none → s.lastUploadedFile = none →
        info.isCustomDataset = true →
        ((checkSessionDataset (NetResult.ok info) now s).fst).datasetMismatch = true ∧
        ((checkSessionDataset (NetResult.ok info) now s).fst).fileUpload.map FileUpload.status =
          some FileStatus.success ∧
        ((checkSessionDataset (NetResult.ok info) now s).fst).showDatasetResetPopup =
          s.showDatasetResetPopup) ∧
    (∀ fu, s.sessionId = some sid → s.fileUpload = some fu →
        fu.status = FileStatus.success → info.isCustomDataset = false →
        ((checkSessionDataset (NetResult.ok info) now s).fst).datasetMismatch = true ∧
        ((checkSessionDataset (NetResult.ok info) now s).fst).showDatasetResetPopup = true ∧
        ((checkSessionDataset (NetResult.ok info) now s).fst).fileUpload = s.fileUpload ∧
        ((checkSessionDataset (NetResult.ok info) now s).fst).lastUploadedFile =
          s.lastUploadedFile) ∧
    (∀ keep ore,
        ((handleDatasetReset keep ore s).fst).datasetMismatch = false ∧
        ((handleDatasetReset keep ore s).fst).showDatasetResetPopup = false) := by
  refine ⟨?_, ?_, ?_⟩
  · intro hsid hfu hrec hinfo
    unfold checkSessionDataset
    rw [hsid]
    simp [hinfo, hfu, hrec]
  · intro fu hsid hfu hst hinfo
    unfold checkSessionDataset
    rw [hsid]
    simp [hinfo, hfu, hst]
  · intro keep ore
    unfold handleDatasetReset
    cases s.fileUpload with
    | none => simp
    | some fu =>
        cases keep with
        | true =>
            by_cases hz : (fu.file.size == 0) = true
            · simp [hz]
            · simp at hz
              simp [hz]
        | false => simp

/-- C3 witness: the amended statement at the Case B input of the
counterexample, at a concrete Case C state, and at a concrete
resolution call. -/
theorem C3_witness :
    c3Post.datasetMismatch = true ∧
    ((checkSessionDataset
        (NetResult.ok { isCustomDataset := false, datasetName := "", datasetDescription := "" })
        0 c1State).fst).datasetMismatch = true ∧
    ((checkSessionDataset
        (NetResult.ok { isCustomDataset := false, datasetName := "", datasetDescription := "" })
        0 c1State).fst).showDatasetResetPopup = true ∧
    ((handleDatasetReset false
        { preview := { uploadResp := NetResult.err "x", previewResp := NetResult.err "x" },
          defaultData := NetResult.err "x" } c3Post).fst).datasetMismatch = false :=
  ⟨((C3_amended_mismatch_not_blocking c3State "sess-9" c3Info 42).1 rfl rfl rfl rfl).1,
   (((C3_amended_mismatch_not_blocking c1State "sess-3"
        { isCustomDataset := false, datasetName := "", datasetDescription := "" } 0).2.1
        _ rfl rfl rfl rfl)).1,
   (((C3_amended_mismatch_not_blocking c1State "sess-3"
        { isCustomDataset := false, datasetName := "", datasetDescription := "" } 0).2.1
        _ rfl rfl rfl rfl)).2.1,
   ((C3_amended_mismatch_not_blocking c3Post "ignored"
        { isCustomDataset := false, datasetName := "", datasetDescription := "" } 0).2.2
        false _).1⟩

/-! ## Claim C4: classification of selected files -/

def c4File : JsFile :=
  { name := "data.txt", type := "", lastModified := 3, size := 9 }

def c4Ore : SelectOracle :=
  { sheetsResp := NetResult.err "unused",
    preview := { uploadResp := NetResult.ok {}, previewResp := NetResult.err "unused" } }

/-- C4 counterexample: a .txt file with an empty declared MIME type is
neither CSV nor Excel, yet it is not classified Unsupported (the
rejection test requires a non-empty declared type); it is routed to the
CSV pipeline, and handleFileSelect even leaves it with a success status
after the internal invalid-format error. -/
theorem C4_counterexample :
    classifyFile c4File = FileKind.CSV ∧
    (handleFileSelect c4File c4Ore {}).fst.fileUpload.map FileUpload.status =
      some FileStatus.success := by decide

/-- C4 amended: an Excel extension or Excel MIME type always routes to
Excel (even when the name also ends in .csv); a CSV extension with no
Excel indication routes to CSV; a file matching no supported extension
or MIME type is Unsupported exactly when its declared type is non-empty,
and with an empty declared type it falls through to the CSV pipeline.
For Unsupported files handleFileSelect makes no network call and records
the validation error. -/
theorem C4_amended_classification (f : JsFile) :
    (isExcelByExtension f = true ∨ isExcelByType f = true →
        classifyFile f = FileKind.Excel) ∧
    (isCSVByExtension f = true → isExcelByExtension f = false →
        isExcelByType f = false → classifyFile f = FileKind.CSV) ∧
    (isCSVByExtension f = false → isExcelByExtension f = false →
        isCSVByType f = false → isExcelByType f = false → f.type ≠ "" →
        classifyFile f = FileKind.Unsupported) ∧
    (isCSVByExtension f = false → isExcelByExtension f = false →
        isCSVByType f = false → isExcelByType f = false → f.type = "" →
        classifyFile f = FileKind.CSV) ∧
    (∀ ore s, classifyFile f = FileKind.Unsupported →
        (handleFileSelect f ore s).snd = [] ∧
        (handleFileSelect f ore s).fst.fileUpload =
          some { file := f, status := FileStatus.error,
                 errorMessage := some "Please upload a CSV or Excel file only" } ∧
        (handleFileSelect f ore s).fst.errorBanner =
          some { message := "Invalid file format",
                 details := some "Please upload a CSV or Excel file only. Other file formats are not supported." }) := by
  refine ⟨?_, ?_, ?_, ?_, ?_⟩
  · intro h
    rcases h with h | h <;>
      simp [classifyFile, invalidFormatCheck, h]
  · intro h1 h2 h3
    simp [classifyFile, invalidFormatCheck, h1, h2, h3]
  · intro h1 h2 h3 h4 h5
    have hb : (f.type != "") = true := by
      simp [bne_iff_ne]
      exact h5
    simp [classifyFile, invalidFormatCheck, h1, h2, h3, h4, hb]
  · intro h1 h2 h3 h4 h5
    simp [classifyFile, invalidFormatCheck, h1, h2, h3, h4, h5]
  · intro ore s hcls
    have hinv : invalidFormatCheck f = true := by
      by_contra hne
      have hfalse : invalidFormatCheck f = false := by
        cases hx : invalidFormatCheck f
        · rfl
        · exact absurd hx hne
      unfold classifyFile at hcls
      rw [hfalse] at hcls
      by_cases hex : (isExcelByExtension f || isExcelByType f) = true
      · simp [hex] at hcls
      · simp at hex
        simp [hex] at hcls
    unfold handleFileSelect fileSelectStart
    simp [hinv]

def c4Pdf : JsFile :=
  { name := "c.pdf", type := "application/pdf", lastModified := 1, size := 5 }

/-- C4 witness: the amended classification at concrete supported and
unsupported files, and the no-network behaviour on an unsupported one. -/
theorem C4_witness :
    classifyFile c2ExcelFile = FileKind.Excel ∧
    classifyFile c2File = FileKind.CSV ∧
    classifyFile c4Pdf = FileKind.Unsupported ∧
    classifyFile c4File = FileKind.CSV ∧
    (handleFileSelect c4Pdf c4Ore {}).snd = [] :=
  ⟨(C4_amended_classification c2ExcelFile).1 (Or.inl (by decide)),
   (C4_amended_classification c2File).2.1 (by decide) (by decide) (by decide),
   (C4_amended_classification c4Pdf).2.2.1 (by decide) (by decide) (by decide)
     (by decide) (by decide),
   (C4_amended_classification c4File).2.2.2.1 (by decide) (by decide) (by decide)
     (by decide) rfl,
   ((C4_amended_classification c4Pdf).2.2.2.2 c4Ore {}
     ((C4_amended_classification c4Pdf).2.2.1 (by decide) (by decide) (by decide)
       (by decide) (by decide))).1⟩

/-! ## Claim C5: the stale-handle check on commit -/

def c5File : JsFile :=
  { name := "ghost.csv", type := "text/csv", lastModified := 0, size := 0 }

def c5State : ChatState :=
  { datasetDescription := { name := "Sales", description := "Q1 sales" },
    fileInputFiles := [c5File] }

def c5Ore : CommitOracle :=
  { uploadResp := NetResult.ok {}, resetResp := NetResult.ok {} }

/-- C5 counterexample: a zero-byte file with no modification time that
sits in the file input element is not caught by the mock-file check
(which additionally requires the file input to be empty); the commit
proceeds and calls the upload endpoint. -/
theorem C5_counterexample :
    (handleUploadWithDescription c5Ore c5State).snd = [NetCall.uploadDataframe] ∧
    (handleUploadWithDescription c5Ore c5State).fst.uploadSuccess = true := by decide

/-- C5 amended: the stale-handle failure applies to a commit whose file
handle is zero-byte, has no modification time, and comes from the
restored FileUpload state while the file input element is empty; then no
endpoint of any kind is called, the FileUpload and the persisted record
are cleared, and the preview closes so the user re-selects the file.  A
zero-byte handle taken from a non-empty file input bypasses the check. -/
theorem C5_amended_stale_handle (s : ChatState) (ore : CommitOracle)
    (fu : FileUpload)
    (hname : s.datasetDescription.name ≠ "")
    (hdesc : s.datasetDescription.description ≠ "")
    (hinput : s.fileInputFiles = [])
    (hfu : s.fileUpload = some fu)
    (hsize : fu.file.size = 0)
    (hmod : fu.file.lastModified = 0) :
    (handleUploadWithDescription ore s).snd = [] ∧
    (handleUploadWithDescription ore s).fst.fileUpload = none ∧
    (handleUploadWithDescription ore s).fst.lastUploadedFile = none ∧
    (handleUploadWithDescription ore s).fst.showPreview = false := by
  have h1 : (s.datasetDescription.name == "") = false := beq_eq_false_iff_ne.mpr hname
  have h2 : (s.datasetDescription.description == "") = false := beq_eq_false_iff_ne.mpr hdesc
  unfold handleUploadWithDescription
  simp [h1, h2, hinput, hfu, hsize, hmod]

def c5MockState : ChatState :=
  { datasetDescription := { name := "Sales", description := "Q1 sales" },
    fileUpload := some { file := { name := "sales.csv", type := "text/csv",
                                   lastModified := 0, size := 0 },
                         status := FileStatus.success },
    lastUploadedFile := some { name := "sales.csv", type := "text/csv",
                               lastModified := 0 },
    showPreview := true }

/-- C5 witness: the amended stale-handle behaviour at a concrete
restored mock file. -/
theorem C5_witness :
    (handleUploadWithDescription c5Ore c5MockState).snd = [] ∧
    (handleUploadWithDescription c5Ore c5MockState).fst.fileUpload = none ∧
    (handleUploadWithDescription c5Ore c5MockState).fst.lastUploadedFile = none ∧
    (handleUploadWithDescription c5Ore c5MockState).fst.showPreview = false :=
  C5_amended_stale_handle c5MockState c5Ore _ (by decide) (by decide) rfl rfl rfl rfl

/-! ## Claim C6: what a new selection replaces -/

def c6PrevPreview : FilePreview :=
  { headers := ["h1"], rows := [["a1"]], name := "A.csv", description := "descA" }

def c6State : ChatState :=
  { filePreview := some c6PrevPreview,
    datasetDescription := { name := "A", description := "descA" } }

def c6File : JsFile :=
  { name := "book.xlsx", type := "", lastModified := 5, size := 99 }

def c6Ore : SelectOracle :=
  { sheetsResp := NetResult.ok ["S1"],
    preview := { uploadResp := NetResult.err "u", previewResp := NetResult.err "u" } }

/-- C6 counterexample: after selecting file B (book.xlsx) with a
successful sheet enumeration, the FilePreview still holds the headers,
rows and description of file A, and DatasetDescription still holds the
description of A — fields of the previous file appear in the state produced
for the newly selected file. -/
theorem C6_counterexample :
    (handleFileSelect c6File c6Ore c6State).fst.fileUpload.map
      (fun fu => fu.file.name) = some "book.xlsx" ∧
    (handleFileSelect c6File c6Ore c6State).fst.filePreview = some c6PrevPreview ∧
    (handleFileSelect c6File c6Ore c6State).fst.datasetDescription.description =
      "descA" := by decide

/-- C6 amended: selecting a valid new file fully replaces the FileUpload
slot with a fresh record built only from the new file (and clears the
persisted record) before processing begins, but FilePreview and
DatasetDescription are not cleared at selection time: they keep the
values of the prior file through processing (shown here through the whole
Excel sheet-enumeration success path) until a later preview overwrites
them. -/
theorem C6_amended_fileupload_replaced (s : ChatState) (f : JsFile)
    (h : invalidFormatCheck f = false) :
    (fileSelectStart f s).fileUpload = some (freshUpload f) ∧
    (fileSelectStart f s).lastUploadedFile = none ∧
    (fileSelectStart f s).filePreview = s.filePreview ∧
    (fileSelectStart f s).datasetDescription = s.datasetDescription ∧
    (∀ ore sheets, ore.sheetsResp = NetResult.ok sheets → sheets ≠ [] →
        (isExcelByExtension f || isExcelByType f) = true →
        (handleFileSelect f ore s).fst.filePreview = s.filePreview ∧
        (handleFileSelect f ore s).fst.datasetDescription = s.datasetDescription) := by
  refine ⟨?_, ?_, ?_, ?_, ?_⟩
  · unfold fileSelectStart
    simp [h]
  · unfold fileSelectStart
    simp [h]
  · unfold fileSelectStart
    simp [h]
  · unfold fileSelectStart
    simp [h]
  · intro ore sheets hsheets hne hex
    have hemp : sheets.isEmpty = false := by
      cases sheets with
      | nil => exact absurd rfl hne
      | cons a l => rfl
    unfold handleFileSelect fileSelectStart
    simp [h, hex, hsheets, hemp]

/-- C6 witness: the amended statement at the counterexample inputs. -/
theorem C6_witness :
    (fileSelectStart c6File c6State).fileUpload = some (freshUpload c6File) ∧
    (fileSelectStart c6File c6State).lastUploadedFile = none ∧
    (handleFileSelect c6File c6Ore c6State).fst.filePreview = c6State.filePreview :=
  ⟨(C6_amended_fileupload_replaced c6State c6File (by decide)).1,
   (C6_amended_fileupload_replaced c6State c6File (by decide)).2.1,
   ((C6_amended_fileupload_replaced c6State c6File (by decide)).2.2.2.2
      c6Ore ["S1"] rfl (by decide) (by decide)).1⟩

/-! ## Claim C7: default-dataset fetch failure -/

def c7State : ChatState :=
  { fileUpload := some { file := { name := "A.csv", type := "text/csv",
                                   lastModified := 7, size := 50 },
                         status := FileStatus.success },
    lastUploadedFile := some { name := "A.csv", type := "text/csv",
                               lastModified := 7 } }

/-- C7 counterexample: when the default-dataset fetch fails, the UI is
not left in its prior state: the FileUpload and the persisted record
were already cleared unconditionally at the start of the handler, before
the fetch. -/
theorem C7_counterexample :
    (handlePreviewDefaultDataset (NetResult.err "down") c7State).fst.fileUpload = none ∧
    (handlePreviewDefaultDataset (NetResult.err "down") c7State).fst.lastUploadedFile = none ∧
    c7State.fileUpload ≠ none := by decide

/-- C7 amended: for both default-dataset operations, a fetch failure is
only logged as far as FilePreview, DatasetDescription, the preview
dialog, the session identity and the mismatch flags are concerned (they
keep their prior values), but the FileUpload, the persisted record and
the file input are cleared unconditionally at entry, before the fetch,
so those are destroyed even on failure. -/
theorem C7_amended_failure_effects (s : ChatState) (e : String) :
    (handlePreviewDefaultDataset (NetResult.err e) s).fst.filePreview = s.filePreview ∧
    (handlePreviewDefaultDataset (NetResult.err e) s).fst.datasetDescription =
      s.datasetDescription ∧
    (handlePreviewDefaultDataset (NetResult.err e) s).fst.showPreview = s.showPreview ∧
    (handlePreviewDefaultDataset (NetResult.err e) s).fst.sessionId = s.sessionId ∧
    (handlePreviewDefaultDataset (NetResult.err e) s).fst.datasetMismatch =
      s.datasetMismatch ∧
    (handlePreviewDefaultDataset (NetResult.err e) s).fst.fileUpload = none ∧
    (handlePreviewDefaultDataset (NetResult.err e) s).fst.lastUploadedFile = none ∧
    (handleSilentDefaultDataset (NetResult.err e) s).fst.filePreview = s.filePreview ∧
    (handleSilentDefaultDataset (NetResult.err e) s).fst.datasetDescription =
      s.datasetDescription ∧
    (handleSilentDefaultDataset (NetResult.err e) s).fst.showPreview = s.showPreview ∧
    (handleSilentDefaultDataset (NetResult.err e) s).fst.sessionId = s.sessionId ∧
    (handleSilentDefaultDataset (NetResult.err e) s).fst.fileUpload = none ∧
    (handleSilentDefaultDataset (NetResult.err e) s).fst.lastUploadedFile = none := by
  unfold handlePreviewDefaultDataset handleSilentDefaultDataset
  simp
